import Mathlib

/-!
Verification of the Hyperlight C guest runtime (`src/HyperlightGuest/src/HyperlightGuest.c`)
against its natural-language specification.

The shared input/output buffers are byte arrays; the C code reads and writes
little-endian 64-bit and 32-bit values at byte offsets.  We model guest memory
as a function from byte offsets to byte values.
-/
namespace Hyperlight

/-- Byte-addressed memory: offset to byte value.  Reads reduce values mod 256,
mirroring `uint8_t` storage. -/
def Mem : Type := Nat → Nat

/-- Model of `memcpy(buffer + off, bs, bs.length)`: write the byte list `bs` at offset `off`. -/
def writeBytes (m : Mem) (off : Nat) (bs : List Nat) : Mem :=
  fun i => if off ≤ i ∧ i < off + bs.length then bs.getD (i - off) 0 else m i

/-- Model of `memset(buffer + off, 0, n)`: zero `n` bytes at offset `off`. -/
def zeroBytes (m : Mem) (off n : Nat) : Mem :=
  fun i => if off ≤ i ∧ i < off + n then 0 else m i

/-- Model of `memcpy(dest, buffer + off, n)` into a fresh destination: read `n` bytes at `off`. -/
def readBytes (m : Mem) (off n : Nat) : List Nat :=
  (List.range n).map fun k => m (off + k)

/-- Model of `*(uint64_t*)(buffer + off) = v`: store a 64-bit little-endian value —
byte `off + k` (for `k < 8`) receives the `k`-th little-endian digit of `v`. -/
def write64 (m : Mem) (off v : Nat) : Mem :=
  fun i => if off ≤ i ∧ i < off + 8 then v / 256 ^ (i - off) % 256 else m i

/-- Model of `*(uint64_t*)(buffer + off)`: load a 64-bit little-endian value. -/
def read64 (m : Mem) (off : Nat) : Nat :=
  m off % 256
  + 256 * (m (off + 1) % 256)
  + 65536 * (m (off + 2) % 256)
  + 16777216 * (m (off + 3) % 256)
  + 4294967296 * (m (off + 4) % 256)
  + 1099511627776 * (m (off + 5) % 256)
  + 281474976710656 * (m (off + 6) % 256)
  + 72057594037927936 * (m (off + 7) % 256)

/-- Load a 32-bit little-endian value (the flatbuffer size prefix). -/
def read32 (m : Mem) (off : Nat) : Nat :=
  m off % 256
  + 256 * (m (off + 1) % 256)
  + 65536 * (m (off + 2) % 256)
  + 16777216 * (m (off + 3) % 256)

/-- The 32-bit little-endian value formed by the first four bytes of a byte list
(the size prefix carried at the start of every serialized frame). -/
def listPrefix32 (bs : List Nat) : Nat :=
  bs.getD 0 0 % 256
  + 256 * (bs.getD 1 0 % 256)
  + 65536 * (bs.getD 2 0 % 256)
  + 16777216 * (bs.getD 3 0 % 256)

/-!
## Error codes

`hyperlight.h` under src defines `GUEST_ERROR = 15`; the early-revision
`hyperlight_error.h` under src defines codes 0-6.  The remaining macro values used
by `HyperlightGuest.c` come from a header that is not under src.
-/
/-- Model of `NO_ERROR` (src `hyperlight_error.h`). -/
def NO_ERROR : Nat := 0

/-- Model of `UNSUPPORTED_PARAMETER_TYPE` (src `hyperlight_error.h`). -/
def UNSUPPORTED_PARAMETER_TYPE : Nat := 2

/-- Model of `GUEST_FUNCTION_NAME_NOT_PROVIDED` (src `hyperlight_error.h`). -/
def GUEST_FUNCTION_NAME_NOT_PROVIDED : Nat := 3

/-- Model of `GUEST_FUNCTION_NOT_FOUND` (src `hyperlight_error.h`). -/
def GUEST_FUNCTION_NOT_FOUND : Nat := 4

/-- Modelled from the spec: the numeric value of the
`GUEST_FUNCTION_INCORRECT_NO_OF_PARAMETERS` macro is not under src; the spec only
fixes that `GuestFunctionIncorrectNumberOfParameters` is a distinct `ErrorCode` value. -/
def GUEST_FUNCTION_INCORRECT_NO_OF_PARAMETERS : Nat := 7

/-- Modelled from the spec: distinct `ErrorCode` value for
`GuestFunctionParameterTypeMismatch`; macro value not under src. -/
def GUEST_FUNCTION_PARAMETER_TYPE_MISMATCH : Nat := 8

/-- Modelled from the spec: distinct `ErrorCode` value for `ArrayLengthParameterMissing`;
macro value not under src. -/
def ARRAY_LENGTH_PARAM_IS_MISSING : Nat := 9

/-- Modelled from the spec: distinct `ErrorCode` value for `MallocFailed`;
macro value not under src. -/
def MALLOC_FAILED : Nat := 10

/-- Modelled from the spec: distinct `ErrorCode` value for `GsCheckFailed`;
macro value not under src. -/
def GS_CHECK_FAILED : Nat := 11

/-- Modelled from the spec: distinct `ErrorCode` value for `FailureInAllocator`
(`FAILURE_IN_DLMALLOC`); macro value not under src. -/
def FAILURE_IN_DLMALLOC : Nat := 12

/-- Modelled from the spec: distinct `ErrorCode` value for `UnknownError`;
macro value not under src. -/
def UNKNOWN_ERROR : Nat := 13

/-- Modelled from the spec: distinct `ErrorCode` value for `StackOverflow`;
macro value not under src. -/
def STACK_OVERFLOW : Nat := 14

/-- Model of `GUEST_ERROR` (src `hyperlight.h`). -/
def GUEST_ERROR : Nat := 15

/-- Modelled from the spec: `Hyperlight_Generated_ErrorCode_is_known_value` is flatcc
generated code not under src.  Per the spec, `ErrorCode` is an enum of fixed values;
`is_known_value` tests membership in that set. -/
def ErrorCode_is_known_value (c : Nat) : Bool := c ≤ 15

/-!
## Shared-buffer stack protocol

`push_shared_output_data` (HyperlightGuest.c lines 226-259) and
`pop_shared_input_buffer` (lines 264-311).  The first 8 bytes of each buffer hold
the relative stack pointer; a frame is stored as payload bytes followed by an
8-byte back-pointer holding the frame's start offset.

Each failure is a `setError(GUEST_ERROR, message)` call, which long-jumps out of
the operation before any byte of the buffer has been modified, so on failure the
buffer is unchanged; we model the operations as `Except`, with the error raised
before any write is applied.
-/
/-- The `setError(GUEST_ERROR, ...)` sites of the two shared-buffer operations. -/
inductive StackErr
  /-- "Corrupt OutputDataBuffer pointer / Corrupt InputDataBuffer pointer" -/
  | corruptPointer (sp bufSize : Nat)
  /-- "Not enough space to push data to shared OutputDataBuffer" -/
  | notEnoughSpace (required available : Nat)
  /-- "Got a 0-size buffer in pop_shared_input_buffer" -/
  | zeroSizeBuffer
deriving DecidableEq

/-- Every shared-buffer failure is raised through `setError(GUEST_ERROR, message)`. -/
def StackErr.code : StackErr → Nat := fun _ => GUEST_ERROR

/-- Model of `push_shared_output_data(buffer, size)`: bufSize is `outputdata.outputDataSize`,
`m` the buffer bytes, `payload` the `size` bytes copied from `buffer`. -/
def push_shared_output_data (bufSize : Nat) (m : Mem) (payload : List Nat) :
    Except StackErr Mem :=
  -- get relative offset to next free address
  let stack_ptr_rel := read64 m 0
  -- bounds check: may equal the size, never greater; never less than 8
  if stack_ptr_rel > bufSize ∨ stack_ptr_rel < 8 then
    .error (.corruptPointer stack_ptr_rel bufSize)
  else
    -- check if there is enough space in the buffer
    let size_required := payload.length + 8
    let size_available := bufSize - stack_ptr_rel
    if size_required > size_available then
      .error (.notEnoughSpace size_required size_available)
    else
      -- write the data
      let m1 := writeBytes m stack_ptr_rel payload
      -- write the offset to the newly written data
      let m2 := write64 m1 (stack_ptr_rel + payload.length) stack_ptr_rel
      -- update the stack pointer to point to next free address
      .ok (write64 m2 0 (stack_ptr_rel + payload.length + 8))

/-- Model of `pop_shared_input_buffer()`: returns the popped (heap-copied) bytes and the new
buffer state.  Modelled from the spec where flatcc is involved:
`flatbuffers_read_size_prefix` is generated code not under src; per spec section 4.2
(pop steps 3-4) it parses the 4-byte little-endian size prefix at the frame start,
and the frame's `n + 4` bytes are copied to a caller-owned heap buffer. -/
def pop_shared_input_buffer (bufSize : Nat) (m : Mem) :
    Except StackErr (List Nat × Mem) :=
  -- get relative offset to next free address
  let stack_ptr_rel := read64 m 0
  -- bounds check: may equal the size, never greater; never less than 16
  if stack_ptr_rel > bufSize ∨ stack_ptr_rel < 16 then
    .error (.corruptPointer stack_ptr_rel bufSize)
  else
    -- read the offset of the element on the top of the stack
    let last_element_start_rel := read64 m (stack_ptr_rel - 8)
    -- read the flatbuffer size prefix
    let size := read32 m last_element_start_rel
    if size = 0 then
      .error .zeroSizeBuffer
    else
      -- copy the buffer, since subsequent pushes would overwrite it
      let buffer := readBytes m last_element_start_rel (size + 4)
      -- update the stack pointer to point to the popped element
      let m1 := write64 m 0 last_element_start_rel
      -- zero out the popped-off region
      let num_bytes_to_zero := stack_ptr_rel - last_element_start_rel
      .ok (buffer, zeroBytes m1 last_element_start_rel num_bytes_to_zero)

/-- A concrete input buffer of size 32 whose stored stack pointer is exactly 16;
`pop` succeeds on it (spec section 8 boundary case "pop when sp == 16 succeeds"). -/
def popBoundaryMem : Mem := fun i => if i = 0 then 16 else if i = 8 then 8 else 0

/-- A concrete 32-byte input buffer holding one well-formed frame: stored `sp = 25`,
frame at offset 8 with payload `[5,0,0,0,9,8,7,6,5]` (size prefix 5) and back-pointer
8 at offset 17. -/
def popFrameMem : Mem :=
  fun i => [25, 0, 0, 0, 0, 0, 0, 0, 5, 0, 0, 0, 9, 8, 7, 6, 5, 8].getD i 0

/-!
## Guest error writer (`writeError`, lines 172-210; `setError`, lines 219-223)

The serialized `GuestError` flatbuffer (builder, `GuestError_code_add`,
`GuestError_message_create`, `ErrorCode_is_known_value`) is flatcc generated code
not under src; the record contents and its length-prefixed layout are modelled from
the spec ("writes a `{code, message}` record into the guest-error buffer,
length-prefixed").
-/
/-- The deserialized contents of the guest-error buffer. -/
structure GuestErrorRecord where
  code : Nat
  message : Option String
deriving DecidableEq

/-- Modelled from the spec: the byte size of the serialized, size-prefixed
`{code, message}` record.  The flatbuffer encoding is not under src; the record
carries a fixed table/vtable/size-prefix overhead plus the message bytes. -/
def guestErrorSerializedSize (message : Option String) : Nat :=
  48 + (match message with | none => 0 | some s => s.length)

/-- Result of `writeError`: either the record was copied into the guest-error buffer
or the `assert(flatb_size <= pPeb->guestErrorBufferSize)` failed (which aborts the
guest via `__assert_fail`; nothing is written and no long-jump happens). -/
inductive WriteErrorResult
  | written (record : GuestErrorRecord)
  | assertFailed
deriving DecidableEq

/-- Model of `writeError(errorCode, message)` against a guest-error buffer of
`guestErrorBufferSize` bytes. -/
def writeError (guestErrorBufferSize errorCode : Nat) (message : Option String) :
    WriteErrorResult :=
  -- validate the error code: unknown values are stored as UnknownError
  let code := if ErrorCode_is_known_value errorCode then errorCode else UNKNOWN_ERROR
  -- build the {code, message} flatbuffer (message added only when non-NULL)
  let flatb_size := guestErrorSerializedSize message
  -- assert(flatb_size <= pPeb->guestErrorBufferSize), then copy to the buffer
  if flatb_size ≤ guestErrorBufferSize then .written ⟨code, message⟩ else .assertFailed

/-- Outcome of `setError`: the record was written and control long-jumped to the
saved `jmpbuf` context, or the `writeError` assertion failed and the guest aborted. -/
inductive SetErrorOutcome
  | recovered (record : GuestErrorRecord)
  | aborted
deriving DecidableEq

/-- Model of `setError(errorCode, message)`: `writeError` followed by `longjmp(jmpbuf, 1)`. -/
def setError (guestErrorBufferSize errorCode : Nat) (message : Option String) :
    SetErrorOutcome :=
  match writeError guestErrorBufferSize errorCode message with
  | .written record => .recovered record
  | .assertFailed => .aborted

/-!
## Dispatcher data model

Parameter tags, guest function definitions and the inbound call record.  The
flatbuffer accessors (`FunctionCall_function_name`, `Parameter_value_type`, ...)
are generated code not under src; the deserialized shapes are modelled from the
spec's data model (section 3).
-/
/-- Tag of the `ParameterValue` union carried by one parameter of an inbound call
frame.  `unknownTag` stands for any union tag outside the generated schema (the
`default` branch of the C switches). -/
inductive ParameterValueTag
  | hlint
  | hllong
  | hlstring
  | hlbool
  | hlvecbytes
  | unknownTag (t : Nat)
deriving DecidableEq

/-- Declared parameter type (`ParameterType` enum of the schema). -/
inductive ParameterType
  | hlint
  | hllong
  | hlstring
  | hlbool
  | hlvecbytes
deriving DecidableEq

/-- The `parameterKind[i]` value the dispatcher records for a known tag
(the switch at lines 793-817).  Unknown tags never reach this point. -/
def tagKind : ParameterValueTag → ParameterType
  | .hlint => .hlint
  | .hllong => .hllong
  | .hlstring => .hlstring
  | .hlbool => .hlbool
  | .hlvecbytes => .hlvecbytes
  | .unknownTag _ => .hlint

/-- A tag is known when it is one of the five schema union members. -/
def knownTag : ParameterValueTag → Bool
  | .unknownTag _ => false
  | _ => true

/-- The `setError` sites reachable during a dispatch, by constructor;
`DispatchErr.code` maps each to the numeric `ErrorCode` the C passes. -/
inductive DispatchErr
  | guestFunctionNameNotProvided
  | guestFunctionNotFound (name : String)
  | incorrectNoOfParameters (name : String) (actual required : Nat)
  | arrayLengthParamMissing (message : String)
  | unsupportedParameterType (name : String) (tag : Nat)
  | parameterTypeMismatch (name : String) (i : Nat)
  | invalidFunctionCallType
  | raisedByHandler (code : Nat) (message : Option String)
  | stackError (e : StackErr)
deriving DecidableEq

/-- The numeric error code `setError` receives at each dispatch failure site. -/
def DispatchErr.code : DispatchErr → Nat
  | .guestFunctionNameNotProvided => GUEST_FUNCTION_NAME_NOT_PROVIDED
  | .guestFunctionNotFound _ => GUEST_FUNCTION_NOT_FOUND
  | .incorrectNoOfParameters _ _ _ => GUEST_FUNCTION_INCORRECT_NO_OF_PARAMETERS
  | .arrayLengthParamMissing _ => ARRAY_LENGTH_PARAM_IS_MISSING
  | .unsupportedParameterType _ _ => UNSUPPORTED_PARAMETER_TYPE
  | .parameterTypeMismatch _ _ => GUEST_FUNCTION_PARAMETER_TYPE_MISMATCH
  | .invalidFunctionCallType => GUEST_ERROR
  | .raisedByHandler c _ => c
  | .stackError _ => GUEST_ERROR

/-- A registered guest function: name, declared parameter types, and the function
pointer (modelled as the handler returning the serialized reply buffer, or the
`setError` call it raises). -/
structure GuestFunctionDefinition where
  name : String
  parameterTypes : List ParameterType
  handler : List ParameterValueTag → Except DispatchErr (List Nat)

/-- Model of `FunctionCallType` of a call frame. -/
inductive FunctionCallType
  | guest
  | host
deriving DecidableEq

/-- A deserialized inbound function-call frame.  Only the parameter value *tags*
matter to the dispatcher's validation; the values are consumed by the handler. -/
structure FunctionCall where
  functionName : Option String
  functionCallType : FunctionCallType
  parameters : List ParameterValueTag

/-- The parameter-kind scan of `CallGuestFunction` (lines 775-825): walks the call's
parameter tags with the `nextParamIsLength` flag, records each kind, and applies the
trailing check after the loop. -/
def scanParameterKinds (functionName : String) :
    List ParameterValueTag → Bool → Nat → Except DispatchErr (List ParameterType)
  | [], nextParamIsLength, _ =>
    -- after the loop: a trailing hlvecbytes must have been followed by an hlint
    if nextParamIsLength then
      .error (.arrayLengthParamMissing "Last parameter should be the length of the array")
    else .ok []
  | t :: rest, nextParamIsLength, i =>
    -- inside the loop: if the previous parameter was hlvecbytes, this one must be hlint
    if nextParamIsLength ∧ t ≠ .hlint then
      .error (.arrayLengthParamMissing ("Parameter " ++ toString i))
    else
      match t with
      | .hlint => (scanParameterKinds functionName rest false (i + 1)).map (.hlint :: ·)
      | .hllong => (scanParameterKinds functionName rest false (i + 1)).map (.hllong :: ·)
      | .hlstring => (scanParameterKinds functionName rest false (i + 1)).map (.hlstring :: ·)
      | .hlbool => (scanParameterKinds functionName rest false (i + 1)).map (.hlbool :: ·)
      | .hlvecbytes => (scanParameterKinds functionName rest true (i + 1)).map (.hlvecbytes :: ·)
      | .unknownTag tag => .error (.unsupportedParameterType functionName tag)

/-- The element-wise type check of `CallGuestFunction` (lines 829-837): compare the
recorded kinds against the declared parameter types. -/
def checkParameterTypes (functionName : String) :
    List ParameterType → List ParameterType → Nat → Except DispatchErr Unit
  | [], _, _ => .ok ()
  | k :: ks, d :: ds, i =>
    if k ≠ d then .error (.parameterTypeMismatch functionName i)
    else checkParameterTypes functionName ks ds (i + 1)
  | _ :: _, [], _ => .ok ()

/-- Model of `GuestDispatchFunctionDefault` (src `hyperlight_guest.h`): the fallback used when
the name is not in the registry; it raises `setError(GUEST_FUNCTION_NOT_FOUND, name)`. -/
def GuestDispatchFunctionDefault (call : FunctionCall) : Except DispatchErr (List Nat) :=
  .error (.guestFunctionNotFound (call.functionName.getD ""))

/-- Model of `CallGuestFunction` (lines 733-843): name check, registry lookup (binary search on
the name-sorted definitions, modelled as `find?` by exact name), arity check, kind
scan, element-wise type check, then the handler call. -/
def CallGuestFunction (registry : List GuestFunctionDefinition) (call : FunctionCall) :
    Except DispatchErr (List Nat) :=
  match call.functionName with
  | none => .error .guestFunctionNameNotProvided
  | some functionName =>
    match registry.find? (fun fd => fd.name = functionName) with
    | none => GuestDispatchFunctionDefault call
    | some functionDefiniton =>
      if functionDefiniton.parameterTypes.length ≠ call.parameters.length then
        .error (.incorrectNoOfParameters functionName call.parameters.length
          functionDefiniton.parameterTypes.length)
      else
        match scanParameterKinds functionName call.parameters false 0 with
        | .error e => .error e
        | .ok parameterKind =>
          match checkParameterTypes functionName parameterKind
              functionDefiniton.parameterTypes 0 with
          | .error e => .error e
          | .ok _ => functionDefiniton.handler call.parameters

/-- Result of one `DispatchFunction` run: the output buffer afterwards, and the
`setError` that long-jumped (if any).  `errorRaised = none` means a reply frame was
pushed; `some e` means the long-jump skipped the push and the output buffer is
untouched. -/
structure DispatchOutcome where
  outputMem : Mem
  errorRaised : Option DispatchErr

/-- Model of `DispatchFunction` (lines 845-882), from the already-deserialized call frame
(the pop of the input buffer and `FunctionCall_as_root` are flatcc generated code
not under src; the frame shape is modelled from the spec): call-type check,
`CallGuestFunction`, then push of the serialized reply onto the output buffer. -/
def DispatchFunction (registry : List GuestFunctionDefinition) (call : FunctionCall)
    (outSize : Nat) (outMem : Mem) : DispatchOutcome :=
  if call.functionCallType ≠ .guest then
    ⟨outMem, some .invalidFunctionCallType⟩
  else
    match CallGuestFunction registry call with
    | .error e => ⟨outMem, some e⟩
    | .ok result =>
      match push_shared_output_data outSize outMem result with
      | .ok m' => ⟨m', none⟩
      | .error e => ⟨outMem, some (.stackError e)⟩

/-!
## Outbound host-call protocol (`ValidateHostFunctionCall`, lines 313-435;
`CallHostFunction`, lines 437-462; return-value thunks, lines 467-625)
-/
/-- One entry of the host function catalog (`HostFunctionDefinition`). -/
structure HostFunctionDefinition where
  name : String
  parameterTypes : List ParameterType
deriving DecidableEq

/-- One variadic argument slot supplied by the caller of a host-call thunk. -/
inductive HostArg
  | int32 (v : Int)
  | int64 (v : Int)
  | str (s : String)
  | boolean (b : Bool)
  | bytes (p : List Nat)
deriving DecidableEq

/-- Model of `va_arg(ap, int32_t)`: reinterprets the next slot.  Reading a slot of another
kind is undefined behaviour in C; modelled as 0 (never reached under matching
arguments). -/
def vaArgInt32 : HostArg → Int
  | .int32 v => v
  | _ => 0

/-- Model of `va_arg(ap, int64_t)` (same convention as `vaArgInt32`). -/
def vaArgInt64 : HostArg → Int
  | .int64 v => v
  | _ => 0

/-- Model of `va_arg(ap, char*)` (same convention as `vaArgInt32`). -/
def vaArgString : HostArg → String
  | .str s => s
  | _ => ""

/-- Model of `va_arg(ap, bool)` (same convention as `vaArgInt32`). -/
def vaArgBool : HostArg → Bool
  | .boolean b => b
  | _ => false

/-- Model of `va_arg(ap, void*)` for a buffer pointer, modelled by the pointed-to bytes. -/
def vaArgBytes : HostArg → List Nat
  | .bytes p => p
  | _ => []

/-- Advance the `va_list`: take the next slot.  Reading past the supplied arguments
is undefined behaviour in C; modelled as an `int32 0` slot (never reached when the
argument count matches). -/
def vaNext : List HostArg → HostArg × List HostArg
  | [] => (.int32 0, [])
  | a :: rest => (a, rest)

/-- A serialized `Parameter` pushed into the outbound call frame. -/
inductive Parameter
  | hlint (v : Int)
  | hllong (v : Int)
  | hlstring (s : String)
  | hlbool (b : Bool)
  | hlvecbytes (bytes : List Nat)
deriving DecidableEq

/-- The `setError(GUEST_ERROR, message)` sites of the outbound-call path. -/
inductive HostCallErr
  /-- "No host functions found" -/
  | noHostFunctions
  /-- "Host Function Not Found: %s" -/
  | hostFunctionNotFound (name : String)
  /-- "Incorrect number of arguments for host function: %s. Got %d Expected %d" -/
  | incorrectNoOfArguments (name : String) (got expected : Nat)
  /-- "Host Function %s: Parameter %d should be length of buffer for parameter %d" -/
  | lengthParamTypeWrong (name : String) (i iPrev : Nat)
  /-- "Failed to get int32 parameter: %d for host function: %s" -/
  | failedToGetLengthParam (name : String) (i : Nat)
  /-- "Unexpected parameter type: %d for host function: %s" -/
  | unexpectedParameterType (name : String)
deriving DecidableEq

/-- Every outbound-call validation failure is a `setError(GUEST_ERROR, message)`. -/
def HostCallErr.code : HostCallErr → Nat := fun _ => GUEST_ERROR

/-- The parameter-building loop of `ValidateHostFunctionCall` (lines 344-432):
`for (i = 0; i < numParams; i++)` over the declared parameter types, consuming the
variadic arguments.  In the `hlvecbytes` case the source reads
`ParameterType_vec_at(parameterTypes, i++)` — a *post*-increment, so the "length
parameter type" it inspects is entry `i` (the `hlvecbytes` entry itself), and the
loop then continues at `i + 2`.  `fuel` is a termination artifact only: the loop
exits when `parameterTypes[i]?` runs out, and every entry point supplies
`fuel = parameterTypes.length - i`, so the fuel never runs out first. -/
def buildHostParamsLoop (parameterTypes : List ParameterType) (functionName : String) :
    Nat → Nat → List HostArg → Except HostCallErr (List Parameter)
  | fuel, i, args =>
    match parameterTypes[i]? with
    | none => .ok []
    | some t =>
      match fuel with
      | 0 => .ok []
      | fuel + 1 =>
        match t with
        | .hlint =>
          let (a, rest) := vaNext args
          (buildHostParamsLoop parameterTypes functionName fuel (i + 1) rest).map
            (Parameter.hlint (vaArgInt32 a) :: ·)
        | .hllong =>
          let (a, rest) := vaNext args
          (buildHostParamsLoop parameterTypes functionName fuel (i + 1) rest).map
            (Parameter.hllong (vaArgInt64 a) :: ·)
        | .hlstring =>
          let (a, rest) := vaNext args
          (buildHostParamsLoop parameterTypes functionName fuel (i + 1) rest).map
            (Parameter.hlstring (vaArgString a) :: ·)
        | .hlbool =>
          let (a, rest) := vaNext args
          (buildHostParamsLoop parameterTypes functionName fuel (i + 1) rest).map
            (Parameter.hlbool (vaArgBool a) :: ·)
        | .hlvecbytes =>
          let (a, rest) := vaNext args
          -- ParameterType_vec_at(parameterTypes, i++): reads index i, then increments
          let lenParamType := parameterTypes.getD i .hlvecbytes
          if lenParamType ≠ .hlint then
            -- message indices use the already-incremented i: (i + 1, i)
            .error (.lengthParamTypeWrong functionName (i + 1) i)
          else
            let (lenArg, rest2) := vaNext rest
            let length := vaArgInt32 lenArg
            -- (length = va_arg(ap, int32_t)) && length > 0
            if length ≠ 0 ∧ 0 < length then
              (buildHostParamsLoop parameterTypes functionName fuel (i + 2) rest2).map
                (fun ps => Parameter.hlvecbytes ((vaArgBytes a).take length.toNat)
                  :: Parameter.hlint length :: ps)
            else .error (.failedToGetLengthParam functionName (i + 1))

/-- Entry of the parameter-building loop at `i = 0`. -/
def buildHostParams (parameterTypes : List ParameterType) (functionName : String)
    (args : List HostArg) : Except HostCallErr (List Parameter) :=
  buildHostParamsLoop parameterTypes functionName parameterTypes.length 0 args

/-- Model of `ValidateHostFunctionCall` (lines 313-435): read the host catalog, locate the
function by exact name (`vec_find_by_function_name`, a binary search on the
name-sorted catalog, modelled as `find?` by exact name), check the argument count,
then build the parameter vector. -/
def ValidateHostFunctionCall (hostFunctionDetails : Option (List HostFunctionDefinition))
    (numArgs : Nat) (functionName : String) (args : List HostArg) :
    Except HostCallErr (List Parameter) :=
  match hostFunctionDetails with
  | none => .error .noHostFunctions
  | some hostFunctionDefinitions =>
    match hostFunctionDefinitions.find? (fun fd => fd.name = functionName) with
    | none => .error (.hostFunctionNotFound functionName)
    | some hostFunctionDefiniton =>
      if numArgs ≠ hostFunctionDefiniton.parameterTypes.length then
        .error (.incorrectNoOfArguments functionName numArgs
          hostFunctionDefiniton.parameterTypes.length)
      else buildHostParams hostFunctionDefiniton.parameterTypes functionName args

/-- An outbound function-call frame (`FunctionCall` with `call_type == host`). -/
structure HostFunctionCall where
  functionName : String
  functionCallType : FunctionCallType
  parameters : List Parameter

/-- An `outb(port, value)` signal issued to the host. -/
structure OutbSignal where
  port : Nat
  value : Nat
deriving DecidableEq

/-- Model of `OUTB_LOG` (src `hyperlight_guest.h`). -/
def OUTB_LOG : Nat := 99

/-- Model of `OUTB_CALL_FUNCTION` (src `hyperlight_guest.h`). -/
def OUTB_CALL_FUNCTION : Nat := 101

/-- Model of `OUTB_ABORT` (src `hyperlight_guest.h`). -/
def OUTB_ABORT : Nat := 102

/-- The observable effect of a successful `CallHostFunction`: the serialized frame
pushed onto the output buffer and the `outb` signal issued afterwards. -/
structure HostCallEffect where
  frame : HostFunctionCall
  outb : OutbSignal

/-- Model of `CallHostFunction` (lines 437-462): build the frame with `call_type == host`,
validate and fill the parameters, push the serialized frame onto the output buffer
and issue `outb(OUTB_CALL_FUNCTION, 0)`. -/
def CallHostFunction (hostFunctionDetails : Option (List HostFunctionDefinition))
    (functionName : String) (numArgs : Nat) (args : List HostArg) :
    Except HostCallErr HostCallEffect :=
  match ValidateHostFunctionCall hostFunctionDetails numArgs functionName args with
  | .error e => .error e
  | .ok parameters =>
    .ok { frame := ⟨functionName, .host, parameters⟩, outb := ⟨OUTB_CALL_FUNCTION, 0⟩ }

/-- The deserialized `FunctionCallResult` return value popped from the input buffer
after an outbound call (flatcc generated readers are not under src; the union shape
is modelled from the spec). -/
inductive ReturnValue
  | hlint (v : Int)
  | hllong (v : Int)
  | hlstring (s : String)
  | hlbool (b : Bool)
  | hlvoid
  | hlsizeprefixedbuffer (bytes : List Nat)
deriving DecidableEq

/-- Model of `GetHostReturnValueAsInt` (lines 481-509): expect an `hlint` return value;
anything else raises `setError(GUEST_ERROR, ...)`. -/
def GetHostReturnValueAsInt (funcCallRes : ReturnValue) : Except (Nat × String) Int :=
  match funcCallRes with
  | .hlint v => .ok v
  | _ => .error (GUEST_ERROR, "Host return value was not an int as expected")

/-- Model of `GetHostReturnValueAsUInt` (lines 539-551): take the int-typed reply; a negative
value raises `setError(GUEST_ERROR, "Host return value was not a uint as expected")`,
otherwise the value is returned unchanged. -/
def GetHostReturnValueAsUInt (funcCallRes : ReturnValue) : Except (Nat × String) Int :=
  match GetHostReturnValueAsInt funcCallRes with
  | .error e => .error e
  | .ok intVal =>
    if intVal < 0 then
      .error (GUEST_ERROR, "Host return value was not a uint as expected")
    else .ok intVal

/-- Failure sites of `native_symbol_thunk_returning_uint`: during the outbound
call itself, or while interpreting the host's reply. -/
inductive HostThunkErr
  | callError (e : HostCallErr)
  | replyError (code : Nat) (message : String)
deriving DecidableEq

/-- Model of `native_symbol_thunk_returning_uint` (lines 525-537): make the outbound call,
then interpret the frame popped from the input buffer (the host's reply, passed here
as `hostReply`) as an unsigned int. -/
def native_symbol_thunk_returning_uint
    (hostFunctionDetails : Option (List HostFunctionDefinition)) (functionName : String)
    (numArgs : Nat) (args : List HostArg) (hostReply : ReturnValue) :
    Except HostThunkErr Int :=
  match CallHostFunction hostFunctionDetails functionName numArgs args with
  | .error e => .error (.callError e)
  | .ok _ =>
    match GetHostReturnValueAsUInt hostReply with
    | .error (c, msg) => .error (.replyError c msg)
    | .ok v => .ok v

/-!
## Bump allocator (`hyperlightMoreCore`, lines 1086-1128)
-/
/-- The two static locals of `hyperlightMoreCore`. -/
structure MoreCoreState where
  unusedHeapBufferPointer : Nat
  allocated : Nat
deriving DecidableEq

/-- Result of one `hyperlightMoreCore` call: a pointer plus the new static state, or
the `abort()` taken when the arena would be exceeded. -/
inductive MoreCoreResult
  | ptr (p : Nat) (s : MoreCoreState)
  | aborted
deriving DecidableEq

/-- Model of `hyperlightMoreCore(size)`.  `guestHeapBuffer` is the arena base address
(`pPeb->guestheapData.guestHeapBuffer`), `guestHeapSize` the arena size.  `size` is a
`size_t`, so the `size < 0` branch of the source is unreachable and the model splits
on `size > 0` versus `size == 0`. -/
def hyperlightMoreCore (guestHeapBuffer guestHeapSize : Nat) (s : MoreCoreState)
    (size : Nat) : MoreCoreResult :=
  if 0 < size then
    -- if (allocated + size > pPeb->guestheapData.guestHeapSize) abort();
    if guestHeapSize < s.allocated + size then .aborted
    else
      let ptr := if s.unusedHeapBufferPointer = 0 then guestHeapBuffer
        else s.unusedHeapBufferPointer
      .ptr ptr ⟨ptr + size, s.allocated + size⟩
  else
    .ptr s.unusedHeapBufferPointer s

/-- The static-local state at guest start (`static void *unusedHeapBufferPointer = 0;
static size_t allocated = 0;`). -/
def initialMoreCoreState : MoreCoreState := ⟨0, 0⟩

/-- The address the next positive-size `hyperlightMoreCore` request would return in
state `s`. -/
def moreCoreCursor (guestHeapBuffer : Nat) (s : MoreCoreState) : Nat :=
  if s.unusedHeapBufferPointer = 0 then guestHeapBuffer else s.unusedHeapBufferPointer

/-- Run a sequence of `hyperlightMoreCore` requests, stopping at the first abort. -/
def runMoreCore (guestHeapBuffer guestHeapSize : Nat) (s : MoreCoreState) :
    List Nat → Option MoreCoreState
  | [] => some s
  | size :: rest =>
    match hyperlightMoreCore guestHeapBuffer guestHeapSize s size with
    | .aborted => none
    | .ptr _ s' => runMoreCore guestHeapBuffer guestHeapSize s' rest

/-- A parameter-tag list violates the vec_bytes length rule when some `hlvecbytes`
parameter is the last one or is not immediately followed by an `hlint`; the flag
records whether the (virtual) preceding parameter was an `hlvecbytes`. -/
def ScanViolation (flag : Bool) (tags : List ParameterValueTag) : Prop :=
  (flag = true ∧ tags[0]? ≠ some ParameterValueTag.hlint)
  ∨ ∃ j, tags[j]? = some ParameterValueTag.hlvecbytes
      ∧ tags[j + 1]? ≠ some ParameterValueTag.hlint

/-- Model of `NoInternalViolation tags`: every `hlvecbytes` that is not the final parameter is
immediately followed by an `hlint`. -/
def NoInternalViolation (tags : List ParameterValueTag) : Prop :=
  ∀ j, tags[j]? = some ParameterValueTag.hlvecbytes → j + 2 ≤ tags.length →
    tags[j + 1]? = some ParameterValueTag.hlint

/-!
## Theorems
-/

theorem read64_lt (m : Mem) (off : Nat) : read64 m off < 18446744073709551616 := by
  unfold read64
  have h0 : m off % 256 < 256 := Nat.mod_lt _ (by omega)
  have h1 : m (off + 1) % 256 < 256 := Nat.mod_lt _ (by omega)
  have h2 : m (off + 2) % 256 < 256 := Nat.mod_lt _ (by omega)
  have h3 : m (off + 3) % 256 < 256 := Nat.mod_lt _ (by omega)
  have h4 : m (off + 4) % 256 < 256 := Nat.mod_lt _ (by omega)
  have h5 : m (off + 5) % 256 < 256 := Nat.mod_lt _ (by omega)
  have h6 : m (off + 6) % 256 < 256 := Nat.mod_lt _ (by omega)
  have h7 : m (off + 7) % 256 < 256 := Nat.mod_lt _ (by omega)
  omega

theorem write64_outside (m : Mem) (off v i : Nat) (h : i < off ∨ off + 8 ≤ i) :
    write64 m off v i = m i := by
  unfold write64
  rw [if_neg (by omega)]

theorem write64_inside (m : Mem) (off v k : Nat) (hk : k < 8) :
    write64 m off v (off + k) = v / 256 ^ k % 256 := by
  unfold write64
  rw [if_pos (by omega), show off + k - off = k by omega]

theorem writeBytes_outside (m : Mem) (off : Nat) (bs : List Nat) (i : Nat)
    (h : i < off ∨ off + bs.length ≤ i) : writeBytes m off bs i = m i := by
  unfold writeBytes
  rw [if_neg (by omega)]

theorem zeroBytes_outside (m : Mem) (off n i : Nat) (h : i < off ∨ off + n ≤ i) :
    zeroBytes m off n i = m i := by
  unfold zeroBytes
  rw [if_neg (by omega)]

theorem zeroBytes_inside (m : Mem) (off n i : Nat) (h1 : off ≤ i) (h2 : i < off + n) :
    zeroBytes m off n i = 0 := by
  unfold zeroBytes
  rw [if_pos ⟨h1, h2⟩]

theorem read64_congr (m m' : Mem) (off : Nat)
    (h : ∀ k, k < 8 → m' (off + k) = m (off + k)) : read64 m' off = read64 m off := by
  have h0 : m' off = m off := h 0 (by omega)
  have h1 : m' (off + 1) = m (off + 1) := h 1 (by omega)
  have h2 : m' (off + 2) = m (off + 2) := h 2 (by omega)
  have h3 : m' (off + 3) = m (off + 3) := h 3 (by omega)
  have h4 : m' (off + 4) = m (off + 4) := h 4 (by omega)
  have h5 : m' (off + 5) = m (off + 5) := h 5 (by omega)
  have h6 : m' (off + 6) = m (off + 6) := h 6 (by omega)
  have h7 : m' (off + 7) = m (off + 7) := h 7 (by omega)
  unfold read64
  rw [h0, h1, h2, h3, h4, h5, h6, h7]

theorem read32_congr (m m' : Mem) (off : Nat)
    (h : ∀ k, k < 4 → m' (off + k) = m (off + k)) : read32 m' off = read32 m off := by
  have h0 : m' off = m off := h 0 (by omega)
  have h1 : m' (off + 1) = m (off + 1) := h 1 (by omega)
  have h2 : m' (off + 2) = m (off + 2) := h 2 (by omega)
  have h3 : m' (off + 3) = m (off + 3) := h 3 (by omega)
  unfold read32
  rw [h0, h1, h2, h3]

theorem read64_write64_same (m : Mem) (off v : Nat) (hv : v < 18446744073709551616) :
    read64 (write64 m off v) off = v := by
  have e0 : write64 m off v off = v % 256 := by
    simpa using write64_inside m off v 0 (by omega)
  have e1 : write64 m off v (off + 1) = v / 256 % 256 := by
    simpa using write64_inside m off v 1 (by omega)
  have e2 : write64 m off v (off + 2) = v / 65536 % 256 := by
    have h := write64_inside m off v 2 (by omega)
    norm_num at h
    exact h
  have e3 : write64 m off v (off + 3) = v / 16777216 % 256 := by
    have h := write64_inside m off v 3 (by omega)
    norm_num at h
    exact h
  have e4 : write64 m off v (off + 4) = v / 4294967296 % 256 := by
    have h := write64_inside m off v 4 (by omega)
    norm_num at h
    exact h
  have e5 : write64 m off v (off + 5) = v / 1099511627776 % 256 := by
    have h := write64_inside m off v 5 (by omega)
    norm_num at h
    exact h
  have e6 : write64 m off v (off + 6) = v / 281474976710656 % 256 := by
    have h := write64_inside m off v 6 (by omega)
    norm_num at h
    exact h
  have e7 : write64 m off v (off + 7) = v / 72057594037927936 % 256 := by
    have h := write64_inside m off v 7 (by omega)
    norm_num at h
    exact h
  unfold read64
  rw [e0, e1, e2, e3, e4, e5, e6, e7]
  omega

theorem readBytes_writeBytes (m : Mem) (off : Nat) (bs : List Nat) :
    readBytes (writeBytes m off bs) off bs.length = bs := by
  apply List.ext_getElem
  · simp [readBytes]
  · intro i h1 h2
    simp only [readBytes, List.getElem_map, List.getElem_range]
    unfold writeBytes
    rw [if_pos (by simp [readBytes] at h1; omega)]
    have : off + i - off = i := by omega
    rw [this]
    exact List.getD_eq_getElem bs 0 h2

theorem readBytes_congr (m m' : Mem) (off n : Nat)
    (h : ∀ k, k < n → m' (off + k) = m (off + k)) : readBytes m' off n = readBytes m off n := by
  apply List.ext_getElem
  · simp [readBytes]
  · intro i h1 h2
    simp only [readBytes, List.getElem_map, List.getElem_range]
    exact h i (by simpa [readBytes] using h1)

theorem stored_uint64_after_pop (m : Mem) (fs sp : Nat)
    (hfs : fs < 18446744073709551616) (hsp8 : 8 ≤ sp) (hfssp : fs ≤ sp) :
    read64 (zeroBytes (write64 m 0 fs) fs (sp - fs)) 0 = fs := by
  have hb : ∀ i, i < 8 →
      zeroBytes (write64 m 0 fs) fs (sp - fs) i =
        if i < fs then write64 m 0 fs i else 0 := by
    intro i hi
    by_cases hcase : i < fs
    · rw [zeroBytes_outside _ _ _ _ (Or.inl hcase), if_pos hcase]
    · rw [zeroBytes_inside _ _ _ _ (by omega) (by omega), if_neg hcase]
  have w0 : write64 m 0 fs 0 = fs % 256 := by
    simpa using write64_inside m 0 fs 0 (by omega)
  have w1 : write64 m 0 fs 1 = fs / 256 % 256 := by
    simpa using write64_inside m 0 fs 1 (by omega)
  have w2 : write64 m 0 fs 2 = fs / 65536 % 256 := by
    have h := write64_inside m 0 fs 2 (by omega)
    norm_num at h
    exact h
  have w3 : write64 m 0 fs 3 = fs / 16777216 % 256 := by
    have h := write64_inside m 0 fs 3 (by omega)
    norm_num at h
    exact h
  have w4 : write64 m 0 fs 4 = fs / 4294967296 % 256 := by
    have h := write64_inside m 0 fs 4 (by omega)
    norm_num at h
    exact h
  have w5 : write64 m 0 fs 5 = fs / 1099511627776 % 256 := by
    have h := write64_inside m 0 fs 5 (by omega)
    norm_num at h
    exact h
  have w6 : write64 m 0 fs 6 = fs / 281474976710656 % 256 := by
    have h := write64_inside m 0 fs 6 (by omega)
    norm_num at h
    exact h
  have w7 : write64 m 0 fs 7 = fs / 72057594037927936 % 256 := by
    have h := write64_inside m 0 fs 7 (by omega)
    norm_num at h
    exact h
  have b0 := hb 0 (by omega)
  have b1 := hb 1 (by omega)
  have b2 := hb 2 (by omega)
  have b3 := hb 3 (by omega)
  have b4 := hb 4 (by omega)
  have b5 := hb 5 (by omega)
  have b6 := hb 6 (by omega)
  have b7 := hb 7 (by omega)
  rw [w0] at b0; rw [w1] at b1; rw [w2] at b2; rw [w3] at b3
  rw [w4] at b4; rw [w5] at b5; rw [w6] at b6; rw [w7] at b7
  have r : read64 (zeroBytes (write64 m 0 fs) fs (sp - fs)) 0 =
      (if 0 < fs then fs % 256 else 0) % 256
      + 256 * ((if 1 < fs then fs / 256 % 256 else 0) % 256)
      + 65536 * ((if 2 < fs then fs / 65536 % 256 else 0) % 256)
      + 16777216 * ((if 3 < fs then fs / 16777216 % 256 else 0) % 256)
      + 4294967296 * ((if 4 < fs then fs / 4294967296 % 256 else 0) % 256)
      + 1099511627776 * ((if 5 < fs then fs / 1099511627776 % 256 else 0) % 256)
      + 281474976710656 * ((if 6 < fs then fs / 281474976710656 % 256 else 0) % 256)
      + 72057594037927936 * ((if 7 < fs then fs / 72057594037927936 % 256 else 0) % 256) := by
    unfold read64
    rw [show (0:Nat) + 1 = 1 by rfl, show (0:Nat) + 2 = 2 by rfl, show (0:Nat) + 3 = 3 by rfl,
      show (0:Nat) + 4 = 4 by rfl, show (0:Nat) + 5 = 5 by rfl, show (0:Nat) + 6 = 6 by rfl,
      show (0:Nat) + 7 = 7 by rfl]
    rw [b0, b1, b2, b3, b4, b5, b6, b7]
  rw [r]
  rcases Nat.lt_or_ge fs 8 with h8 | h8
  · interval_cases fs <;> simp
  · rw [if_pos (show 0 < fs by omega), if_pos (show 1 < fs by omega),
      if_pos (show 2 < fs by omega), if_pos (show 3 < fs by omega),
      if_pos (show 4 < fs by omega), if_pos (show 5 < fs by omega),
      if_pos (show 6 < fs by omega), if_pos (show 7 < fs by omega)]
    omega

theorem read32_writeBytes (m : Mem) (off : Nat) (bs : List Nat) (h : 4 ≤ bs.length) :
    read32 (writeBytes m off bs) off = listPrefix32 bs := by
  have e : ∀ k, k < 4 → writeBytes m off bs (off + k) = bs.getD k 0 := by
    intro k hk
    unfold writeBytes
    rw [if_pos (by omega)]
    congr 1
    omega
  have e0 : writeBytes m off bs off = bs.getD 0 0 := e 0 (by omega)
  have e1 : writeBytes m off bs (off + 1) = bs.getD 1 0 := e 1 (by omega)
  have e2 : writeBytes m off bs (off + 2) = bs.getD 2 0 := e 2 (by omega)
  have e3 : writeBytes m off bs (off + 3) = bs.getD 3 0 := e 3 (by omega)
  unfold read32 listPrefix32
  rw [e0, e1, e2, e3]

theorem push_norm (bufSize : Nat) (m : Mem) (payload : List Nat) (sp : Nat)
    (hsp : read64 m 0 = sp) (h8 : 8 ≤ sp) (hle : sp ≤ bufSize) :
    push_shared_output_data bufSize m payload =
      if payload.length + 8 > bufSize - sp then
        .error (.notEnoughSpace (payload.length + 8) (bufSize - sp))
      else
        .ok (write64 (write64 (writeBytes m sp payload) (sp + payload.length) sp) 0
          (sp + payload.length + 8)) := by
  simp only [push_shared_output_data, hsp]
  rw [if_neg (by omega : ¬(sp > bufSize ∨ sp < 8))]

/-- C2. `push(frame, size)` on a shared buffer whose stored stack pointer `sp`
satisfies `8 ≤ sp ≤ bufSize` succeeds exactly when `sp + size + 8 ≤ bufSize`
(equality succeeds; one more byte fails with a `GuestError` "not enough space"
`setError`, raised before any byte of the buffer is modified), and on success copies
the `size` payload bytes to offset `sp`, writes the old `sp` as an 8-byte
back-pointer at offset `sp + size`, and sets the stored stack pointer to
`sp + size + 8`. -/
theorem C2_push_shared_output_data (bufSize : Nat) (m : Mem) (payload : List Nat) (sp : Nat)
    (hsp : read64 m 0 = sp) (h8 : 8 ≤ sp) (hle : sp ≤ bufSize)
    (hbuf : bufSize < 18446744073709551616) :
    ((∃ m', push_shared_output_data bufSize m payload = .ok m') ↔
        sp + payload.length + 8 ≤ bufSize)
    ∧ (bufSize < sp + payload.length + 8 →
        push_shared_output_data bufSize m payload =
          .error (.notEnoughSpace (payload.length + 8) (bufSize - sp))
        ∧ (StackErr.notEnoughSpace (payload.length + 8) (bufSize - sp)).code = GUEST_ERROR)
    ∧ (sp + payload.length + 8 ≤ bufSize →
        ∃ m', push_shared_output_data bufSize m payload = .ok m'
          ∧ readBytes m' sp payload.length = payload
          ∧ read64 m' (sp + payload.length) = sp
          ∧ read64 m' 0 = sp + payload.length + 8) := by
  have key := push_norm bufSize m payload sp hsp h8 hle
  have hsplt : sp < 18446744073709551616 := hsp ▸ read64_lt m 0
  by_cases hfit : payload.length + 8 > bufSize - sp
  · rw [if_pos hfit] at key
    refine ⟨?_, fun _ => ⟨key, rfl⟩, fun h => absurd h (by omega)⟩
    constructor
    · rintro ⟨m', hm'⟩
      rw [key] at hm'
      cases hm'
    · intro h
      exact absurd h (by omega)
  · rw [if_neg hfit] at key
    have hfits : sp + payload.length + 8 ≤ bufSize := by omega
    refine ⟨⟨fun _ => hfits, fun _ => ⟨_, key⟩⟩, fun h => absurd h (by omega), fun _ => ?_⟩
    refine ⟨_, key, ?_, ?_, ?_⟩
    · have hc : readBytes
          (write64 (write64 (writeBytes m sp payload) (sp + payload.length) sp) 0
            (sp + payload.length + 8)) sp payload.length =
          readBytes (writeBytes m sp payload) sp payload.length := by
        apply readBytes_congr
        intro k hk
        rw [write64_outside _ _ _ _ (by omega), write64_outside _ _ _ _ (by omega)]
      rw [hc]
      exact readBytes_writeBytes m sp payload
    · have hc : read64
          (write64 (write64 (writeBytes m sp payload) (sp + payload.length) sp) 0
            (sp + payload.length + 8)) (sp + payload.length) =
          read64 (write64 (writeBytes m sp payload) (sp + payload.length) sp)
            (sp + payload.length) := by
        apply read64_congr
        intro k hk
        rw [write64_outside _ _ _ _ (by omega)]
      rw [hc]
      exact read64_write64_same _ _ _ hsplt
    · exact read64_write64_same _ _ _ (by omega)

/-- Witness for C2 at a concrete buffer: `bufSize = 32`, stored `sp = 8`
(empty stack), payload of 16 bytes — the boundary case `sp + size + 8 = bufSize`
succeeds; the same buffer with a 17-byte payload fails. -/
theorem C2_witness :
    (read64 (fun i => if i = 0 then 8 else 0) 0 = 8
      ∧ ∃ m', push_shared_output_data 32 (fun i => if i = 0 then 8 else 0)
          [4, 0, 0, 0, 1, 2, 3, 4, 5, 6, 7, 8, 9, 10, 11, 12] = .ok m')
    ∧ push_shared_output_data 32 (fun i => if i = 0 then 8 else 0)
        [4, 0, 0, 0, 1, 2, 3, 4, 5, 6, 7, 8, 9, 10, 11, 12, 13] =
      .error (.notEnoughSpace 25 24) := by
  have h : read64 (fun i => if i = 0 then 8 else 0) 0 = 8 := by decide
  refine ⟨⟨h, ?_⟩, ?_⟩
  · exact (C2_push_shared_output_data 32 _ _ 8 h (by omega) (by omega) (by omega)).1.mpr
      (by decide)
  · exact ((C2_push_shared_output_data 32 _ _ 8 h (by omega) (by omega) (by omega)).2.1
      (by decide)).1

theorem pop_norm (bufSize : Nat) (m : Mem) (sp : Nat)
    (hsp : read64 m 0 = sp) (h16 : 16 ≤ sp) (hle : sp ≤ bufSize) :
    pop_shared_input_buffer bufSize m =
      if read32 m (read64 m (sp - 8)) = 0 then .error .zeroSizeBuffer
      else
        .ok (readBytes m (read64 m (sp - 8)) (read32 m (read64 m (sp - 8)) + 4),
          zeroBytes (write64 m 0 (read64 m (sp - 8))) (read64 m (sp - 8))
            (sp - read64 m (sp - 8))) := by
  simp only [pop_shared_input_buffer, hsp]
  rw [if_neg (by omega : ¬(sp > bufSize ∨ sp < 16))]

/-- C3. `pop()` on the shared input buffer fails with a `GuestError` `setError`
whenever the stored stack pointer `sp` is less than 16 or greater than the buffer
size (in particular `sp = 8`, the empty stack, fails, and `sp = 16` passes the bounds
check and succeeds — last conjunct, at the concrete boundary state `popBoundaryMem`);
on success it returns a fresh copy of the size-prefixed payload (`n + 4` bytes for
payload length `n`) of the frame whose start offset `frame_start` is read from the
8-byte back-pointer at `sp - 8`, zeroes the region `[frame_start, sp)`, and sets the
stored stack pointer to `frame_start`. -/
theorem C3_pop_shared_input_buffer (bufSize : Nat) (m : Mem) (sp : Nat)
    (hsp : read64 m 0 = sp) :
    (sp < 16 ∨ bufSize < sp →
        pop_shared_input_buffer bufSize m = .error (.corruptPointer sp bufSize)
        ∧ (StackErr.corruptPointer sp bufSize).code = GUEST_ERROR)
    ∧ (16 ≤ sp → sp ≤ bufSize →
        ∀ fs n, read64 m (sp - 8) = fs → read32 m fs = n → 0 < n →
          pop_shared_input_buffer bufSize m =
            .ok (readBytes m fs (n + 4), zeroBytes (write64 m 0 fs) fs (sp - fs))
          ∧ read64 (zeroBytes (write64 m 0 fs) fs (sp - fs)) 0 = fs
          ∧ (∀ i, fs ≤ i → i < sp → zeroBytes (write64 m 0 fs) fs (sp - fs) i = 0))
    ∧ (∃ r, pop_shared_input_buffer 32 popBoundaryMem = .ok r)
    ∧ read64 popBoundaryMem 0 = 16 := by
  refine ⟨?_, ?_, ⟨_, rfl⟩, by decide⟩
  · intro h
    refine ⟨?_, rfl⟩
    simp only [pop_shared_input_buffer, hsp]
    rw [if_pos (by omega)]
  · intro h16 hle fs n hfs hn hnpos
    have key := pop_norm bufSize m sp hsp h16 hle
    rw [hfs, hn, if_neg (by omega)] at key
    have hfslt : fs < 18446744073709551616 := hfs ▸ read64_lt m (sp - 8)
    refine ⟨key, ?_, ?_⟩
    · rcases le_or_lt fs sp with hc | hc
      · exact stored_uint64_after_pop m fs sp hfslt (by omega) hc
      · have hz : sp - fs = 0 := by omega
        rw [hz]
        have hcong : read64 (zeroBytes (write64 m 0 fs) fs 0) 0 =
            read64 (write64 m 0 fs) 0 := by
          apply read64_congr
          intro k hk
          exact zeroBytes_outside _ _ _ _ (by omega)
        rw [hcong]
        exact read64_write64_same _ _ _ hfslt
    · intro i h1 h2
      exact zeroBytes_inside _ _ _ _ h1 (by omega)

/-- Witness for C3: on the empty input buffer (`sp = 8`) `pop` fails with the
corrupt-pointer `GuestError`; on `popFrameMem` (stored `sp = 25`, one well-formed
frame at offset 8 with size prefix 5) `pop` succeeds. -/
theorem C3_witness :
    (read64 (fun i => if i = 0 then 8 else 0) 0 = 8
      ∧ pop_shared_input_buffer 32 (fun i => if i = 0 then 8 else 0) =
        .error (.corruptPointer 8 32))
    ∧ (read64 popFrameMem 0 = 25 ∧ read64 popFrameMem 17 = 8 ∧ read32 popFrameMem 8 = 5
      ∧ ∃ r, pop_shared_input_buffer 32 popFrameMem = .ok r) := by
  have h1 : read64 (fun i => if i = 0 then 8 else 0) 0 = 8 := by decide
  have h2 : read64 popFrameMem 0 = 25 := by decide
  have h3 : read64 popFrameMem 17 = 8 := by decide
  have h4 : read32 popFrameMem 8 = 5 := by decide
  refine ⟨⟨h1, ?_⟩, h2, h3, h4, ?_⟩
  · exact ((C3_pop_shared_input_buffer 32 _ 8 h1).1 (by omega)).1
  · exact ⟨_, (((C3_pop_shared_input_buffer 32 popFrameMem 25 h2).2.1 (by omega) (by omega)
      8 5 h3 h4 (by omega)).1)⟩

/-- C4. For every shared-buffer state with stack pointer `sp` and all bytes at
offsets at or beyond `sp` equal to zero, and every frame that fits (a frame being a
well-formed length-prefixed record: `size = n + 4` bytes whose 4-byte little-endian
size prefix holds `n > 0`, per the spec's data model and section 4.2 layout),
performing a push of that frame followed by a matching pop returns the stack pointer
to its pre-push value `sp`, leaves all bytes at offsets at or beyond `sp` zero again,
and yields the pushed payload unchanged. -/
theorem C4_push_pop_roundtrip (bufSize : Nat) (m : Mem) (payload : List Nat) (sp n : Nat)
    (hsp : read64 m 0 = sp) (h8 : 8 ≤ sp) (hle : sp ≤ bufSize)
    (hbuf : bufSize < 18446744073709551616)
    (hzero : ∀ i, sp ≤ i → m i = 0)
    (hlen : payload.length = n + 4) (hpre : listPrefix32 payload = n) (hn : 0 < n)
    (hfit : sp + payload.length + 8 ≤ bufSize) :
    ∃ m' m'' : Mem,
      push_shared_output_data bufSize m payload = .ok m'
      ∧ pop_shared_input_buffer bufSize m' = .ok (payload, m'')
      ∧ read64 m'' 0 = sp
      ∧ ∀ i, sp ≤ i → m'' i = 0 := by
  have hsplt : sp < 18446744073709551616 := hsp ▸ read64_lt m 0
  have key := push_norm bufSize m payload sp hsp h8 hle
  rw [if_neg (by omega)] at key
  set W : Mem := writeBytes m sp payload with hW
  set m' : Mem := write64 (write64 W (sp + payload.length) sp) 0
    (sp + payload.length + 8) with hm'
  -- the stored stack pointer after the push
  have hsp' : read64 m' 0 = sp + payload.length + 8 :=
    read64_write64_same _ _ _ (by omega)
  -- the back-pointer written by the push
  have hback : read64 m' (sp + payload.length) = sp := by
    have hcong : read64 m' (sp + payload.length) =
        read64 (write64 W (sp + payload.length) sp) (sp + payload.length) := by
      apply read64_congr
      intro k hk
      exact write64_outside _ _ _ _ (by omega)
    rw [hcong]
    exact read64_write64_same _ _ _ hsplt
  -- the size prefix of the pushed frame
  have hprefix : read32 m' sp = n := by
    have hcong : read32 m' sp = read32 W sp := by
      apply read32_congr
      intro k hk
      have e1 : m' (sp + k) = write64 W (sp + payload.length) sp (sp + k) :=
        write64_outside _ _ _ _ (by omega)
      have e2 : write64 W (sp + payload.length) sp (sp + k) = W (sp + k) :=
        write64_outside _ _ _ _ (by omega)
      rw [e1, e2]
    rw [hcong, hW, read32_writeBytes m sp payload (by omega), hpre]
  -- the popped copy is the pushed payload
  have hcopy : readBytes m' sp (n + 4) = payload := by
    have hcong : readBytes m' sp (n + 4) = readBytes W sp (n + 4) := by
      apply readBytes_congr
      intro k hk
      have e1 : m' (sp + k) = write64 W (sp + payload.length) sp (sp + k) :=
        write64_outside _ _ _ _ (by omega)
      have e2 : write64 W (sp + payload.length) sp (sp + k) = W (sp + k) :=
        write64_outside _ _ _ _ (by omega)
      rw [e1, e2]
    rw [hcong, hW, ← hlen, readBytes_writeBytes]
  have hpop := pop_norm bufSize m' (sp + payload.length + 8) hsp' (by omega) (by omega)
  rw [show sp + payload.length + 8 - 8 = sp + payload.length by omega, hback, hprefix,
    if_neg (by omega), hcopy] at hpop
  refine ⟨m', _, key, hpop, ?_, ?_⟩
  · exact stored_uint64_after_pop m' sp (sp + payload.length + 8) hsplt (by omega)
      (by omega)
  · intro i hi
    rcases Nat.lt_or_ge i (sp + payload.length + 8) with hc | hc
    · exact zeroBytes_inside _ _ _ _ hi (by omega)
    · rw [zeroBytes_outside _ _ _ _ (by omega), write64_outside _ _ _ _ (by omega), hm',
        write64_outside _ _ _ _ (by omega), write64_outside _ _ _ _ (by omega), hW,
        writeBytes_outside _ _ _ _ (by omega)]
      exact hzero i (by omega)

/-- Witness for C4 on the empty buffer of size 32 with `sp = 8` and a well-formed
frame `[5,0,0,0,9,8,7,6,5]` (prefix `n = 5`, total `n + 4 = 9` bytes). -/
theorem C4_witness :
    ∃ m' m'' : Mem,
      push_shared_output_data 32 (fun i => if i = 0 then 8 else 0)
        [5, 0, 0, 0, 9, 8, 7, 6, 5] = .ok m'
      ∧ pop_shared_input_buffer 32 m' = .ok ([5, 0, 0, 0, 9, 8, 7, 6, 5], m'')
      ∧ read64 m'' 0 = 8
      ∧ ∀ i, 8 ≤ i → m'' i = 0 := by
  have h1 : read64 (fun i => if i = 0 then 8 else 0) 0 = 8 := by decide
  exact C4_push_pop_roundtrip 32 _ _ 8 5 h1 (by omega) (by omega) (by omega)
    (fun i hi => if_neg (by omega)) (by decide) (by decide) (by omega)
    (by decide)

/-!
## Theorems for the error writer (C5, C10)
-/
/-- C10. Whenever `writeError` (and hence `setError`) is called with a numeric
error code that is not one of the known `ErrorCode` enum values, the record written
to the guest-error buffer carries the code `UnknownError` while the supplied message
is written unchanged; known codes are written as given.  (Stated for records that
pass the buffer-size assertion, since otherwise nothing is written at all.) -/
theorem C10_writeError_unknown_code (guestErrorBufferSize errorCode : Nat)
    (message : Option String)
    (hfit : guestErrorSerializedSize message ≤ guestErrorBufferSize) :
    (ErrorCode_is_known_value errorCode = false →
      writeError guestErrorBufferSize errorCode message = .written ⟨UNKNOWN_ERROR, message⟩)
    ∧ (ErrorCode_is_known_value errorCode = true →
      writeError guestErrorBufferSize errorCode message = .written ⟨errorCode, message⟩) := by
  constructor <;> intro hc <;> simp [writeError, hc, hfit]

/-- Witness for C10: code 9999 is unknown and is stored as `UNKNOWN_ERROR`;
`GUEST_ERROR` is known and stored as given. -/
theorem C10_witness :
    (guestErrorSerializedSize (some "boom") ≤ 100
      ∧ ErrorCode_is_known_value 9999 = false
      ∧ writeError 100 9999 (some "boom") = .written ⟨UNKNOWN_ERROR, some "boom"⟩)
    ∧ (ErrorCode_is_known_value GUEST_ERROR = true
      ∧ writeError 100 GUEST_ERROR (some "boom") = .written ⟨GUEST_ERROR, some "boom"⟩) := by
  refine ⟨⟨by decide, by decide, ?_⟩, by decide, ?_⟩
  · exact (C10_writeError_unknown_code 100 9999 (some "boom") (by decide)).1 (by decide)
  · exact (C10_writeError_unknown_code 100 GUEST_ERROR (some "boom") (by decide)).2 (by decide)

/-- C5 counterexample. The claim fails as stated in two ways.  (1) No truncation:
with a guest-error buffer of 60 bytes and a 30-character message the serialized
record does not fit; `writeError`'s `assert(flatb_size <= guestErrorBufferSize)`
fails and the guest aborts — nothing is written and no long-jump to the saved
context happens, where the claim promises a record with the message truncated to
fit.  (2) For an unknown code `c = 9999` the stored record carries `UNKNOWN_ERROR`,
not `c`. -/
theorem C5_counterexample :
    setError 60 GUEST_ERROR (some "abcdefghijklmnopqrstuvwxyz0123") = .aborted
    ∧ setError 100 9999 (some "m") = .recovered ⟨UNKNOWN_ERROR, some "m"⟩
    ∧ UNKNOWN_ERROR ≠ 9999 := by
  refine ⟨by decide, by decide, by decide⟩

/-- C5 (amended). For every *known* error code `c` and message `m` whose
serialized record fits the guest-error buffer, `setError(c, m)` writes the
length-prefixed `{c, m}` record into the guest-error buffer (the message unchanged;
when the record does not fit, the guest's assertion fails and it aborts instead of
truncating) and then long-jumps to the saved execution context; afterwards the
guest-error buffer deserializes to `{c, m}`, and no normal reply is produced for the
in-flight call: a dispatch whose guest function raises this `setError` leaves the
output buffer untouched. -/
theorem C5_setError (guestErrorBufferSize c : Nat) (msg : String)
    (hknown : ErrorCode_is_known_value c = true)
    (hfit : guestErrorSerializedSize (some msg) ≤ guestErrorBufferSize) :
    setError guestErrorBufferSize c (some msg) = .recovered ⟨c, some msg⟩
    ∧ ∀ (registry : List GuestFunctionDefinition) (call : FunctionCall)
        (outSize : Nat) (outMem : Mem),
        call.functionCallType = FunctionCallType.guest →
        CallGuestFunction registry call = .error (.raisedByHandler c (some msg)) →
        DispatchFunction registry call outSize outMem =
          ⟨outMem, some (.raisedByHandler c (some msg))⟩ := by
  constructor
  · simp [setError, writeError, hknown, hfit]
  · intro registry call outSize outMem hguest hcall
    unfold DispatchFunction
    rw [if_neg (by simp [hguest]), hcall]

/-- Witness for C5: a registered guest function "Crash" whose handler raises
`setError(GUEST_ERROR, "boom")`; the record is written and recovered, and the
dispatch of a call to "Crash" pushes nothing to the output buffer. -/
theorem C5_witness :
    (ErrorCode_is_known_value GUEST_ERROR = true
      ∧ guestErrorSerializedSize (some "boom") ≤ 100
      ∧ setError 100 GUEST_ERROR (some "boom") = .recovered ⟨GUEST_ERROR, some "boom"⟩)
    ∧ DispatchFunction
        [⟨"Crash", [], fun _ => .error (.raisedByHandler GUEST_ERROR (some "boom"))⟩]
        ⟨some "Crash", .guest, []⟩ 64 (fun _ => 0) =
      ⟨fun _ => 0, some (.raisedByHandler GUEST_ERROR (some "boom"))⟩ := by
  have h := C5_setError 100 GUEST_ERROR "boom" (by decide) (by decide)
  refine ⟨⟨by decide, by decide, h.1⟩, ?_⟩
  exact h.2 [⟨"Crash", [], fun _ => .error (.raisedByHandler GUEST_ERROR (some "boom"))⟩]
    ⟨some "Crash", .guest, []⟩ 64 (fun _ => 0) rfl rfl

/-!
## Theorems for the outbound host-call path (C6, C7)
-/
/-- C6 (code bug). The claim says that an outbound host call whose arguments
match the declared parameter types — *including* a `vec_bytes` parameter immediately
followed by its `int32` length — validates successfully and pushes the
`call_type == host` frame followed by `OUTB(OUTB_CALL_FUNCTION, 0)`.  The code
disagrees: `ValidateHostFunctionCall` reads
`ParameterType_vec_at(parameterTypes, i++)` (a post-increment, so index `i` — the
`hlvecbytes` entry itself, never `hlint`) where its own comment says "the following
parameter must be its length", so *every* host function declaring a `vec_bytes`
parameter fails with `setError(GUEST_ERROR, "Host Function %s: Parameter 1 should be
length of buffer for parameter 0")` and no frame is pushed.  Evaluated here on host
function "WriteBytes" declared `(vec_bytes, int32)` called with a 3-byte buffer and
length 3. -/
theorem C6_code_bug :
    CallHostFunction (some [⟨"WriteBytes", [.hlvecbytes, .hlint]⟩]) "WriteBytes" 2
      [.bytes [1, 2, 3], .int32 3] =
      .error (.lengthParamTypeWrong "WriteBytes" 1 0)
    ∧ (HostCallErr.lengthParamTypeWrong "WriteBytes" 1 0).code = GUEST_ERROR
    ∧ CallHostFunction (some [⟨"HostPrint", [.hlstring]⟩]) "HostPrint" 1 [.str "hello"] =
      .ok ⟨⟨"HostPrint", .host, [.hlstring "hello"]⟩, ⟨OUTB_CALL_FUNCTION, 0⟩⟩ :=
  ⟨rfl, rfl, rfl⟩

/-- C7. For every outbound call made through `native_symbol_thunk_returning_uint`
that reaches the host (the call itself validates), if the host's int-typed reply
value is negative the guest raises `setError(GUEST_ERROR, "Host return value was not
a uint as expected")` via the recovery path, and otherwise the reply value is
returned to the caller unchanged. -/
theorem C7_uint_thunk (hostFunctionDetails : Option (List HostFunctionDefinition))
    (functionName : String) (numArgs : Nat) (args : List HostArg)
    (eff : HostCallEffect) (v : Int)
    (hcall : CallHostFunction hostFunctionDetails functionName numArgs args = .ok eff) :
    (v < 0 →
      native_symbol_thunk_returning_uint hostFunctionDetails functionName numArgs args
        (.hlint v) =
        .error (.replyError GUEST_ERROR "Host return value was not a uint as expected"))
    ∧ (0 ≤ v →
      native_symbol_thunk_returning_uint hostFunctionDetails functionName numArgs args
        (.hlint v) = .ok v) := by
  constructor <;> intro hv <;>
    simp [native_symbol_thunk_returning_uint, hcall, GetHostReturnValueAsUInt,
      GetHostReturnValueAsInt]
  · rw [if_pos hv]
  · rw [if_neg (by omega)]

/-- Witness for C7: host function "GetTwo" with no parameters; a reply of `-7` raises
the uint `GuestError`, a reply of `2` is returned unchanged. -/
theorem C7_witness :
    (CallHostFunction (some [⟨"GetTwo", []⟩]) "GetTwo" 0 [] =
      .ok ⟨⟨"GetTwo", .host, []⟩, ⟨OUTB_CALL_FUNCTION, 0⟩⟩)
    ∧ native_symbol_thunk_returning_uint (some [⟨"GetTwo", []⟩]) "GetTwo" 0 []
        (.hlint (-7)) =
      .error (.replyError GUEST_ERROR "Host return value was not a uint as expected")
    ∧ native_symbol_thunk_returning_uint (some [⟨"GetTwo", []⟩]) "GetTwo" 0 []
        (.hlint 2) = .ok 2 := by
  refine ⟨rfl, ?_, ?_⟩
  · exact (C7_uint_thunk (some [⟨"GetTwo", []⟩]) "GetTwo" 0 [] _ (-7) rfl).1 (by decide)
  · exact (C7_uint_thunk (some [⟨"GetTwo", []⟩]) "GetTwo" 0 [] _ 2 rfl).2 (by decide)

/-!
## Theorems for the bump allocator (C8, C9)
-/
theorem runMoreCore_fills (guestHeapBuffer guestHeapSize : Nat) (sizes : List Nat) :
    ∀ s : MoreCoreState, (∀ x ∈ sizes, 0 < x) →
      s.allocated + sizes.sum ≤ guestHeapSize →
      ∃ s', runMoreCore guestHeapBuffer guestHeapSize s sizes = some s'
        ∧ s'.allocated = s.allocated + sizes.sum := by
  induction sizes with
  | nil => exact fun s _ _ => ⟨s, rfl, by simp⟩
  | cons size rest ih =>
    intro s hpos hsum
    have hszpos : 0 < size := hpos size (by simp)
    have hstep : hyperlightMoreCore guestHeapBuffer guestHeapSize s size =
        .ptr (moreCoreCursor guestHeapBuffer s)
          ⟨moreCoreCursor guestHeapBuffer s + size, s.allocated + size⟩ := by
      unfold hyperlightMoreCore moreCoreCursor
      rw [if_pos hszpos, if_neg (by simp at hsum; omega)]
    have hrest : (⟨moreCoreCursor guestHeapBuffer s + size, s.allocated + size⟩ :
        MoreCoreState).allocated + rest.sum ≤ guestHeapSize := by
      simp at hsum ⊢
      omega
    obtain ⟨s', hs', halloc⟩ := ih ⟨moreCoreCursor guestHeapBuffer s + size,
      s.allocated + size⟩ (fun x hx => hpos x (by simp [hx])) hrest
    refine ⟨s', ?_, by simp at hsum halloc ⊢; omega⟩
    unfold runMoreCore
    rw [hstep]
    exact hs'

/-- C8. For every positive request size `n`, `hyperlightMoreCore(n)` returns the
current cursor into the heap arena and advances the cursor by `n`, and it aborts
exactly when the cumulative allocated total plus `n` would exceed the arena size; in
particular, a sequence of positive requests totalling exactly `guestHeapSize` bytes
succeeds (from the initial state) and one additional byte then aborts. -/
theorem C8_hyperlightMoreCore (guestHeapBuffer guestHeapSize : Nat) (s : MoreCoreState)
    (size : Nat) (hpos : 0 < size) :
    (guestHeapSize < s.allocated + size →
      hyperlightMoreCore guestHeapBuffer guestHeapSize s size = .aborted)
    ∧ (s.allocated + size ≤ guestHeapSize →
      hyperlightMoreCore guestHeapBuffer guestHeapSize s size =
        .ptr (moreCoreCursor guestHeapBuffer s)
          ⟨moreCoreCursor guestHeapBuffer s + size, s.allocated + size⟩
      ∧ moreCoreCursor guestHeapBuffer
          ⟨moreCoreCursor guestHeapBuffer s + size, s.allocated + size⟩ =
          moreCoreCursor guestHeapBuffer s + size)
    ∧ (∀ sizes : List Nat, (∀ x ∈ sizes, 0 < x) → sizes.sum = guestHeapSize →
        ∃ s', runMoreCore guestHeapBuffer guestHeapSize initialMoreCoreState sizes =
            some s'
          ∧ hyperlightMoreCore guestHeapBuffer guestHeapSize s' 1 = .aborted) := by
  refine ⟨?_, ?_, ?_⟩
  · intro habort
    unfold hyperlightMoreCore
    rw [if_pos hpos, if_pos habort]
  · intro hfits
    constructor
    · unfold hyperlightMoreCore moreCoreCursor
      rw [if_pos hpos, if_neg (by omega)]
    · simp only [moreCoreCursor]
      rw [if_neg (by split <;> omega)]
  · intro sizes hall hsum
    obtain ⟨s', hs', halloc⟩ := runMoreCore_fills guestHeapBuffer guestHeapSize sizes
      initialMoreCoreState hall (by simp [initialMoreCoreState, hsum])
    refine ⟨s', hs', ?_⟩
    unfold hyperlightMoreCore
    rw [if_pos (by omega), if_pos (by simp [initialMoreCoreState] at halloc; omega)]

/-- Witness for C8: arena of 100 bytes at base 4096; a request of 60 returns the
base and advances, requests `[60, 40]` fill the arena exactly, and one more byte
aborts. -/
theorem C8_witness :
    hyperlightMoreCore 4096 100 initialMoreCoreState 60 = .ptr 4096 ⟨4156, 60⟩
    ∧ ∃ s', runMoreCore 4096 100 initialMoreCoreState [60, 40] = some s'
        ∧ hyperlightMoreCore 4096 100 s' 1 = .aborted := by
  constructor
  · exact ((C8_hyperlightMoreCore 4096 100 initialMoreCoreState 60 (by omega)).2.1
      (by simp [initialMoreCoreState])).1
  · exact (C8_hyperlightMoreCore 4096 100 initialMoreCoreState 1 (by omega)).2.2
      [60, 40] (by decide) (by decide)

/-- C9 counterexample. In the initial allocator state (before the first
positive-size allocation, `unusedHeapBufferPointer = 0`), `hyperlightMoreCore(0)`
returns the null pointer `0`, while the next positive-size request returns the heap
base (here 4096): `more_core(0)` does *not* return "the address that the next
positive-size request would return" in that state. -/
theorem C9_counterexample :
    hyperlightMoreCore 4096 65536 initialMoreCoreState 0 = .ptr 0 initialMoreCoreState
    ∧ hyperlightMoreCore 4096 65536 initialMoreCoreState 1 = .ptr 4096 ⟨4097, 1⟩
    ∧ (0 : Nat) ≠ 4096 := by
  refine ⟨rfl, rfl, by decide⟩

/-- C9 (amended). `hyperlightMoreCore(0)` returns the stored
`unusedHeapBufferPointer` and does not advance it; in every state *after* the first
positive-size allocation (`unusedHeapBufferPointer ≠ 0`) that value is the current
cursor — the address the next positive-size request would return.  Before the first
allocation it is the null pointer `0`, not the heap base. -/
theorem C9_moreCore_zero (guestHeapBuffer guestHeapSize : Nat) (s : MoreCoreState) :
    hyperlightMoreCore guestHeapBuffer guestHeapSize s 0 =
      .ptr s.unusedHeapBufferPointer s
    ∧ (s.unusedHeapBufferPointer ≠ 0 →
      hyperlightMoreCore guestHeapBuffer guestHeapSize s 0 =
        .ptr (moreCoreCursor guestHeapBuffer s) s) := by
  constructor
  · rfl
  · intro hne
    unfold hyperlightMoreCore moreCoreCursor
    rw [if_neg (by omega), if_neg hne]

/-- Witness for C9 (amended): after a first allocation the cursor is 4156 and
`more_core(0)` returns it without advancing. -/
theorem C9_witness :
    (MoreCoreState.unusedHeapBufferPointer ⟨4156, 60⟩ ≠ 0)
    ∧ hyperlightMoreCore 4096 100 ⟨4156, 60⟩ 0 = .ptr 4156 ⟨4156, 60⟩ := by
  refine ⟨by decide, ?_⟩
  have h := (C9_moreCore_zero 4096 100 ⟨4156, 60⟩).2 (by decide)
  simpa [moreCoreCursor] using h

/-!
## Theorems for the dispatcher's vec_bytes length rule (C1)

Step equations for `scanParameterKinds`, used to control unfolding.
-/
theorem scan_nil_false (fname : String) (i : Nat) :
    scanParameterKinds fname [] false i = .ok [] := rfl

theorem scan_nil_true (fname : String) (i : Nat) :
    scanParameterKinds fname [] true i =
      .error (.arrayLengthParamMissing
        "Last parameter should be the length of the array") := rfl

theorem scan_cons_hlint (fname : String) (rest : List ParameterValueTag) (i : Nat)
    (flag : Bool) :
    scanParameterKinds fname (.hlint :: rest) flag i =
      (scanParameterKinds fname rest false (i + 1)).map (.hlint :: ·) := by
  cases flag <;> rfl

theorem scan_cons_hllong (fname : String) (rest : List ParameterValueTag) (i : Nat) :
    scanParameterKinds fname (.hllong :: rest) false i =
      (scanParameterKinds fname rest false (i + 1)).map (.hllong :: ·) := rfl

theorem scan_cons_hlstring (fname : String) (rest : List ParameterValueTag) (i : Nat) :
    scanParameterKinds fname (.hlstring :: rest) false i =
      (scanParameterKinds fname rest false (i + 1)).map (.hlstring :: ·) := rfl

theorem scan_cons_hlbool (fname : String) (rest : List ParameterValueTag) (i : Nat) :
    scanParameterKinds fname (.hlbool :: rest) false i =
      (scanParameterKinds fname rest false (i + 1)).map (.hlbool :: ·) := rfl

theorem scan_cons_hlvecbytes (fname : String) (rest : List ParameterValueTag) (i : Nat) :
    scanParameterKinds fname (.hlvecbytes :: rest) false i =
      (scanParameterKinds fname rest true (i + 1)).map (.hlvecbytes :: ·) := rfl

theorem scan_cons_unknown (fname : String) (tag : Nat) (rest : List ParameterValueTag)
    (i : Nat) :
    scanParameterKinds fname (.unknownTag tag :: rest) false i =
      .error (.unsupportedParameterType fname tag) := rfl

theorem scan_cons_true_err (fname : String) (t : ParameterValueTag)
    (rest : List ParameterValueTag) (i : Nat) (ht : t ≠ ParameterValueTag.hlint) :
    scanParameterKinds fname (t :: rest) true i =
      .error (.arrayLengthParamMissing ("Parameter " ++ toString i)) := by
  simp only [scanParameterKinds]
  rw [if_pos ⟨by trivial, ht⟩]

theorem scanViolation_shift (t : ParameterValueTag) (rest : List ParameterValueTag)
    (hviol : ScanViolation false (t :: rest))
    (ht : t ≠ ParameterValueTag.hlvecbytes) : ScanViolation false rest := by
  rcases hviol with ⟨hfalse, _⟩ | ⟨j, hj, hj1⟩
  · cases hfalse
  · cases j with
    | zero =>
      exfalso
      apply ht
      simpa using hj
    | succ j' => exact Or.inr ⟨j', by simpa using hj, by simpa using hj1⟩

theorem scan_violation_err (fname : String) (tags : List ParameterValueTag) :
    ∀ flag i, (∀ t ∈ tags, knownTag t = true) → ScanViolation flag tags →
      ∃ msg, scanParameterKinds fname tags flag i =
        .error (.arrayLengthParamMissing msg) := by
  induction tags with
  | nil =>
    intro flag i _ hviol
    rcases hviol with ⟨hflag, _⟩ | ⟨j, hj, _⟩
    · subst hflag
      exact ⟨_, scan_nil_true fname i⟩
    · simp at hj
  | cons t rest ih =>
    intro flag i hknown hviol
    have hknownt : knownTag t = true := hknown t (by simp)
    have hknownrest : ∀ x ∈ rest, knownTag x = true := fun x hx => hknown x (by simp [hx])
    cases flag with
    | true =>
      by_cases ht : t = ParameterValueTag.hlint
      · subst ht
        have hviol' : ScanViolation false rest := by
          rcases hviol with ⟨_, hh⟩ | ⟨j, hj, hj1⟩
          · simp at hh
          · cases j with
            | zero => simp at hj
            | succ j' => exact Or.inr ⟨j', by simpa using hj, by simpa using hj1⟩
        obtain ⟨msg, hmsg⟩ := ih false (i + 1) hknownrest hviol'
        refine ⟨msg, ?_⟩
        rw [scan_cons_hlint, hmsg]
        rfl
      · exact ⟨_, scan_cons_true_err fname t rest i ht⟩
    | false =>
      cases t with
      | unknownTag tag =>
        simp [knownTag] at hknownt
      | hlvecbytes =>
        have hviol' : ScanViolation true rest := by
          by_cases hh : rest[0]? = some ParameterValueTag.hlint
          · rcases hviol with ⟨hfalse, _⟩ | ⟨j, hj, hj1⟩
            · cases hfalse
            · cases j with
              | zero =>
                exfalso
                apply hj1
                simpa using hh
              | succ j' => exact Or.inr ⟨j', by simpa using hj, by simpa using hj1⟩
          · exact Or.inl ⟨rfl, hh⟩
        obtain ⟨msg, hmsg⟩ := ih true (i + 1) hknownrest hviol'
        refine ⟨msg, ?_⟩
        rw [scan_cons_hlvecbytes, hmsg]
        rfl
      | hlint =>
        obtain ⟨msg, hmsg⟩ := ih false (i + 1) hknownrest
          (scanViolation_shift _ rest hviol (by simp))
        refine ⟨msg, ?_⟩
        rw [scan_cons_hlint, hmsg]
        rfl
      | hllong =>
        obtain ⟨msg, hmsg⟩ := ih false (i + 1) hknownrest
          (scanViolation_shift _ rest hviol (by simp))
        refine ⟨msg, ?_⟩
        rw [scan_cons_hllong, hmsg]
        rfl
      | hlstring =>
        obtain ⟨msg, hmsg⟩ := ih false (i + 1) hknownrest
          (scanViolation_shift _ rest hviol (by simp))
        refine ⟨msg, ?_⟩
        rw [scan_cons_hlstring, hmsg]
        rfl
      | hlbool =>
        obtain ⟨msg, hmsg⟩ := ih false (i + 1) hknownrest
          (scanViolation_shift _ rest hviol (by simp))
        refine ⟨msg, ?_⟩
        rw [scan_cons_hlbool, hmsg]
        rfl

theorem scan_true_cons_int (fname : String) (rest : List ParameterValueTag) (i : Nat) :
    scanParameterKinds fname (.hlint :: rest) true i =
      scanParameterKinds fname (.hlint :: rest) false i := by
  rw [scan_cons_hlint, scan_cons_hlint]

theorem noInternalViolation_shift (t : ParameterValueTag) (rest : List ParameterValueTag)
    (h : NoInternalViolation (t :: rest)) : NoInternalViolation rest := by
  intro j hj hjlen
  have := h (j + 1) (by simpa using hj) (by simp; omega)
  simpa using this

theorem scan_no_internal (fname : String) (tags : List ParameterValueTag) :
    ∀ i, (∀ t ∈ tags, knownTag t = true) → NoInternalViolation tags →
    scanParameterKinds fname tags false i =
      if tags.getLast? = some ParameterValueTag.hlvecbytes then
        .error (.arrayLengthParamMissing
          "Last parameter should be the length of the array")
      else .ok (tags.map tagKind) := by
  induction tags with
  | nil => intro i _ _; rfl
  | cons t rest ih =>
    intro i hknown hni
    have hknownt : knownTag t = true := hknown t (by simp)
    have hknownrest : ∀ x ∈ rest, knownTag x = true := fun x hx => hknown x (by simp [hx])
    have hnirest := noInternalViolation_shift t rest hni
    cases t with
    | unknownTag tag => simp [knownTag] at hknownt
    | hlvecbytes =>
      cases rest with
      | nil =>
        rw [scan_cons_hlvecbytes, scan_nil_true]
        rfl
      | cons r rest' =>
        have hr : r = ParameterValueTag.hlint := by
          have := hni 0 (by simp) (by simp)
          simpa using this
        subst hr
        rw [scan_cons_hlvecbytes, scan_true_cons_int,
          ih (i + 1) hknownrest hnirest, List.getLast?_cons_cons]
        by_cases hlast : (ParameterValueTag.hlint :: rest').getLast? =
            some ParameterValueTag.hlvecbytes
        · rw [if_pos hlast, if_pos hlast]
          rfl
        · rw [if_neg hlast, if_neg hlast]
          rfl
    | hlint =>
      cases rest with
      | nil =>
        rw [scan_cons_hlint, scan_nil_false]
        rfl
      | cons r rest' =>
        rw [scan_cons_hlint, ih (i + 1) hknownrest hnirest, List.getLast?_cons_cons]
        by_cases hlast : (r :: rest').getLast? = some ParameterValueTag.hlvecbytes
        · rw [if_pos hlast, if_pos hlast]
          rfl
        · rw [if_neg hlast, if_neg hlast]
          rfl
    | hllong =>
      cases rest with
      | nil =>
        rw [scan_cons_hllong, scan_nil_false]
        rfl
      | cons r rest' =>
        rw [scan_cons_hllong, ih (i + 1) hknownrest hnirest, List.getLast?_cons_cons]
        by_cases hlast : (r :: rest').getLast? = some ParameterValueTag.hlvecbytes
        · rw [if_pos hlast, if_pos hlast]
          rfl
        · rw [if_neg hlast, if_neg hlast]
          rfl
    | hlstring =>
      cases rest with
      | nil =>
        rw [scan_cons_hlstring, scan_nil_false]
        rfl
      | cons r rest' =>
        rw [scan_cons_hlstring, ih (i + 1) hknownrest hnirest, List.getLast?_cons_cons]
        by_cases hlast : (r :: rest').getLast? = some ParameterValueTag.hlvecbytes
        · rw [if_pos hlast, if_pos hlast]
          rfl
        · rw [if_neg hlast, if_neg hlast]
          rfl
    | hlbool =>
      cases rest with
      | nil =>
        rw [scan_cons_hlbool, scan_nil_false]
        rfl
      | cons r rest' =>
        rw [scan_cons_hlbool, ih (i + 1) hknownrest hnirest, List.getLast?_cons_cons]
        by_cases hlast : (r :: rest').getLast? = some ParameterValueTag.hlvecbytes
        · rw [if_pos hlast, if_pos hlast]
          rfl
        · rw [if_neg hlast, if_neg hlast]
          rfl

/-- C1 (amended). For every guest function call dispatched to a function found in
the registry that supplies the declared number of parameters, all carrying known
union tags: if a parameter of type `vec_bytes` is the last parameter, or is not
immediately followed by an `int32` parameter, the dispatcher fails the call with
`ArrayLengthParameterMissing` (with message "Last parameter should be the length of
the array" when no earlier `vec_bytes` is missing its length, i.e. in the
trailing-parameter case) and pushes no reply frame — the output buffer is returned
untouched. -/
theorem C1_array_length_parameter_missing (registry : List GuestFunctionDefinition)
    (call : FunctionCall) (fd : GuestFunctionDefinition) (outSize : Nat) (outMem : Mem)
    (hguest : call.functionCallType = FunctionCallType.guest)
    (hname : call.functionName = some fd.name)
    (hfound : registry.find? (fun g => g.name = fd.name) = some fd)
    (hcount : fd.parameterTypes.length = call.parameters.length)
    (hknown : ∀ t ∈ call.parameters, knownTag t = true)
    (hviol : ∃ j, call.parameters[j]? = some ParameterValueTag.hlvecbytes
      ∧ call.parameters[j + 1]? ≠ some ParameterValueTag.hlint) :
    (∃ msg, DispatchFunction registry call outSize outMem =
        ⟨outMem, some (.arrayLengthParamMissing msg)⟩
      ∧ (DispatchErr.arrayLengthParamMissing msg).code = ARRAY_LENGTH_PARAM_IS_MISSING)
    ∧ (NoInternalViolation call.parameters →
      DispatchFunction registry call outSize outMem =
        ⟨outMem, some (.arrayLengthParamMissing
          "Last parameter should be the length of the array")⟩) := by
  have hcgf : ∀ msg, scanParameterKinds fd.name call.parameters false 0 =
      .error (.arrayLengthParamMissing msg) →
      CallGuestFunction registry call = .error (.arrayLengthParamMissing msg) := by
    intro msg hmsg
    simp only [CallGuestFunction, hname, hfound]
    rw [if_neg (by omega), hmsg]
  have hdisp : ∀ msg, CallGuestFunction registry call =
      .error (.arrayLengthParamMissing msg) →
      DispatchFunction registry call outSize outMem =
        ⟨outMem, some (.arrayLengthParamMissing msg)⟩ := by
    intro msg hc
    unfold DispatchFunction
    rw [if_neg (by simp [hguest]), hc]
  constructor
  · obtain ⟨msg, hmsg⟩ := scan_violation_err fd.name call.parameters false 0 hknown
      (Or.inr hviol)
    exact ⟨msg, hdisp msg (hcgf msg hmsg), rfl⟩
  · intro hni
    obtain ⟨j, hj, hj1⟩ := hviol
    have hjlt : j < call.parameters.length := (List.getElem?_eq_some.mp hj).1
    have hjlast : j + 1 = call.parameters.length := by
      rcases le_or_lt (j + 2) call.parameters.length with hc | hc
      · exact absurd (hni j hj hc) hj1
      · omega
    have hlast : call.parameters.getLast? = some ParameterValueTag.hlvecbytes := by
      rw [List.getLast?_eq_getElem?, show call.parameters.length - 1 = j by omega]
      exact hj
    have hscan := scan_no_internal fd.name call.parameters 0 hknown hni
    rw [if_pos hlast] at hscan
    exact hdisp _ (hcgf _ hscan)

/-- C1 counterexample. A call to registered function "WriteBytes" (declared with
two `int32` parameters) carrying a single `vec_bytes` parameter — which is therefore
the call's last parameter — fails with `GuestFunctionIncorrectNumberOfParameters`
(the arity check at lines 764-769 runs first), not `ArrayLengthParameterMissing` as
the claim states. -/
theorem C1_counterexample :
    ((⟨some "WriteBytes", .guest, [.hlvecbytes]⟩ : FunctionCall).parameters.getLast? =
      some ParameterValueTag.hlvecbytes)
    ∧ (DispatchFunction [⟨"WriteBytes", [.hlint, .hlint], fun _ => .ok [0]⟩]
        ⟨some "WriteBytes", .guest, [.hlvecbytes]⟩ 64 (fun _ => 0)).errorRaised =
      some (.incorrectNoOfParameters "WriteBytes" 1 2)
    ∧ (DispatchErr.incorrectNoOfParameters "WriteBytes" 1 2).code ≠
        ARRAY_LENGTH_PARAM_IS_MISSING :=
  ⟨rfl, rfl, by decide⟩

/-- Witness for C1: function "Copy" declared `(vec_bytes, int32)`.  A call with tags
`[int32, vec_bytes]` (trailing `vec_bytes`, correct arity) fails with the trailing
message; a call with tags `[vec_bytes, vec_bytes]` fails with
`ArrayLengthParameterMissing` as well.  In both cases the output buffer is returned
untouched. -/
theorem C1_witness :
    DispatchFunction [⟨"Copy", [.hlvecbytes, .hlint], fun _ => .ok [0]⟩]
        ⟨some "Copy", .guest, [.hlint, .hlvecbytes]⟩ 64 (fun _ => 0) =
      ⟨fun _ => 0, some (.arrayLengthParamMissing
        "Last parameter should be the length of the array")⟩
    ∧ ∃ msg, DispatchFunction [⟨"Copy", [.hlvecbytes, .hlint], fun _ => .ok [0]⟩]
        ⟨some "Copy", .guest, [.hlvecbytes, .hlvecbytes]⟩ 64 (fun _ => 0) =
      ⟨fun _ => 0, some (.arrayLengthParamMissing msg)⟩ := by
  constructor
  · refine (C1_array_length_parameter_missing
      [⟨"Copy", [.hlvecbytes, .hlint], fun _ => .ok [0]⟩]
      ⟨some "Copy", .guest, [.hlint, .hlvecbytes]⟩
      ⟨"Copy", [.hlvecbytes, .hlint], fun _ => .ok [0]⟩ 64 (fun _ => 0)
      rfl rfl rfl (by decide) (by decide) ⟨1, by decide, by decide⟩).2 ?_
    intro j hj hlen
    have hj0 : j = 0 := by simp at hlen; omega
    subst hj0
    simp at hj
  · obtain ⟨msg, hmsg, _⟩ := (C1_array_length_parameter_missing
      [⟨"Copy", [.hlvecbytes, .hlint], fun _ => .ok [0]⟩]
      ⟨some "Copy", .guest, [.hlvecbytes, .hlvecbytes]⟩
      ⟨"Copy", [.hlvecbytes, .hlint], fun _ => .ok [0]⟩ 64 (fun _ => 0)
      rfl rfl rfl (by decide) (by decide) ⟨0, by decide, by decide⟩).1
    exact ⟨msg, hmsg⟩

end Hyperlight
